import Mathlib

/-!
# Verification of the Mandelbrot GPU explorer core (src/mandelbrot.cpp)

Shallow embedding of the compute-and-present pipeline of the repository:
the per-pixel OpenCL iteration kernel, the palette construction
(`initColorTable`), the host color-mapping loop (`generateMandelbrot`),
the asynchronous generation guard (`generateMandelbrotAsync`), and the
viewport state machine of the interaction loop.

Numeric embedding: the source computes in IEEE `float` / `long double`.
We embed the arithmetic in exact rationals (`ℚ`).  Every concrete input
used in a theorem below only exercises values that are exactly
representable in binary floating point and whose operations incur no
rounding (small integers such as 0, 2, 4, 6, 36, and the exact halves
400 = 800/2, 300 = 600/2), so on those inputs the rational evaluation
coincides with the float evaluation of the source.  Integer state (loop
counters, bytes, table indices) is embedded as `ℕ` with explicit
`% 256` where the source truncates to a byte.
-/

namespace MandelbrotGPU

/-- Raster width, `const int WIDTH = 800` (line 12). -/
def WIDTH : ℕ := 800

/-- Raster height, `const int HEIGHT = 600` (line 13). -/
def HEIGHT : ℕ := 600

/-- Iteration cap, `const int MAX_ITER = 800` (line 14). -/
def MAX_ITER : ℕ := 800

/-! ## Palette (`initColorTable`, lines 30–38) -/

/-- Truncation of a nonnegative value to a byte, as
`static_cast<uint8_t>` does: floor, reduced mod 256. -/
def toByte (q : ℚ) : ℕ := (Int.toNat ⌊q⌋) % 256

/-- One entry of the color table: the body of the loop of
`initColorTable` (lines 32–36) at index `iter`, with
`t = iter / MAX_ITER` and the three smoothing polynomials
`9(1-t)t³·255`, `15(1-t)²t²·255`, `8.5(1-t)³t·255` each truncated to a
byte. -/
def colorEntry (iter : ℕ) : ℕ × ℕ × ℕ :=
  let t : ℚ := (iter : ℚ) / (MAX_ITER : ℚ)
  (toByte (9 * (1 - t) * t * t * t * 255),
   toByte (15 * (1 - t) * (1 - t) * t * t * 255),
   toByte ((17/2) * (1 - t) * (1 - t) * (1 - t) * t * 255))

/-- The color table built by `initColorTable` (lines 30–38): one RGB
triple for every `iter` in `[0, MAX_ITER]`. -/
def initColorTable : List (ℕ × ℕ × ℕ) :=
  (List.range (MAX_ITER + 1)).map colorEntry

/-- The host-side read `colorTable[n]` (line 120). -/
def colorLookup (n : ℕ) : ℕ × ℕ × ℕ :=
  initColorTable.getD n (0, 0, 0)

/-! ## Iteration kernel (OpenCL source, lines 59–92) -/

/-- The kernel's `while (iter < max_iter)` loop (lines 79–88), with the
remaining iteration budget `fuel = max_iter - iter` made structural.
State is `(zx, zy, iter)`; the result records the final counter and
whether the loop exited through the escape `break` (`zx²+zy² > 4`)
rather than by exhausting the budget. -/
def mandelLoop (cx cy : ℚ) : ℕ → ℚ → ℚ → ℕ → ℕ × Bool
  | 0, _, _, iter => (iter, false)
  | fuel + 1, zx, zy, iter =>
    if zx * zx + zy * zy > 4 then (iter, true)
    else mandelLoop cx cy fuel (zx * zx - zy * zy + cx) (2 * zx * zy + cy) (iter + 1)

/-- The kernel's iteration of `z ← z² + c` from `z = 0` (lines 76–88):
final counter value and escape flag. -/
def mandelRun (cx cy : ℚ) (maxIter : ℕ) : ℕ × Bool :=
  mandelLoop cx cy maxIter 0 0 0

/-- Embeds `float scaleX = 3.5 / width / zoom` (line 70), with
`width = WIDTH`. -/
def scaleX (zoom : ℚ) : ℚ := (7/2) / (WIDTH : ℚ) / zoom

/-- Embeds `float scaleY = 2.0 / height / zoom` (line 71), with
`height = HEIGHT`. -/
def scaleY (zoom : ℚ) : ℚ := 2 / (HEIGHT : ℚ) / zoom

/-- Embeds `float cx = (x - width/2) * scaleX + offsetX` (line 73);
`width/2` is C integer division. -/
def kernelCx (x : ℕ) (offX zoom : ℚ) : ℚ :=
  (((x : ℤ) - (WIDTH : ℤ) / 2 : ℤ) : ℚ) * scaleX zoom + offX

/-- Embeds `float cy = (y - height/2) * scaleY + offsetY` (line 74);
`height/2` is C integer division. -/
def kernelCy (y : ℕ) (offY zoom : ℚ) : ℚ :=
  (((y : ℤ) - (HEIGHT : ℤ) / 2 : ℤ) : ℚ) * scaleY zoom + offY

/-- The full per-pixel kernel up to the final store: iteration count and
escape flag for work-item `(x, y)` under the given viewport. -/
def mandelbrotPixelIter (x y : ℕ) (offX offY zoom : ℚ) (maxIter : ℕ) : ℕ × Bool :=
  mandelRun (kernelCx x offX zoom) (kernelCy y offY zoom) maxIter

/-- The `uchar3` the kernel stores at `output[y*width + x]` (line 90):
`(iter % 256, iter % 256, iter % 256)`. -/
def mandelbrotKernelPixel (x y : ℕ) (offX offY zoom : ℚ) (maxIter : ℕ) : ℕ × ℕ × ℕ :=
  let iter := (mandelbrotPixelIter x y offX offY zoom maxIter).1
  (iter % 256, iter % 256, iter % 256)

/-! ## Host color mapping (`generateMandelbrot`, lines 117–125) -/

/-- The RGB triple `generateMandelbrot` writes at
`image[(y*WIDTH+x)*3 .. +2]`: the palette entry at the first byte
(`s0`) of the device output for that pixel (lines 119–123). -/
def framePixel (x y : ℕ) (offX offY zoom : ℚ) : ℕ × ℕ × ℕ :=
  colorLookup (mandelbrotKernelPixel x y offX offY zoom MAX_ITER).1

/-! ## Viewport state and interaction transitions (lines 18–20, 174–199) -/

/-- Pan/zoom parameters: the globals `offsetX`, `offsetY`, `zoom`
(lines 18–20). -/
structure Viewport where
  offsetX : ℚ
  offsetY : ℚ
  zoom : ℚ
  deriving DecidableEq

/-- Pan step `0.1f` used by the W/S/A/D handlers (lines 176–188). -/
def PAN_STEP : ℚ := 1/10

/-- Zoom factor `1.05L` used by the E/Q handlers (lines 192, 196). -/
def ZOOM_FACTOR : ℚ := 21/20

/-- The six key events handled by the interaction loop's switch
(lines 174–199). -/
inductive InputEvent
  | panUp | panDown | panLeft | panRight | zoomIn | zoomOut
  deriving DecidableEq

/-- The effect of one key event on the viewport (switch body,
lines 174–199): pans move the offset by `PAN_STEP / zoom`, zooms
multiply or divide `zoom` by `ZOOM_FACTOR`.  The arithmetic here is
exact (infinite precision); the binary32 rounding the source's `float`
updates perform is modelled separately by `roundF32`, `panRightF32`
and `panLeftF32` below. -/
def applyEvent (v : Viewport) : InputEvent → Viewport
  | .panUp    => { v with offsetY := v.offsetY - PAN_STEP / v.zoom }
  | .panDown  => { v with offsetY := v.offsetY + PAN_STEP / v.zoom }
  | .panLeft  => { v with offsetX := v.offsetX - PAN_STEP / v.zoom }
  | .panRight => { v with offsetX := v.offsetX + PAN_STEP / v.zoom }
  | .zoomIn   => { v with zoom := v.zoom * ZOOM_FACTOR }
  | .zoomOut  => { v with zoom := v.zoom / ZOOM_FACTOR }

/-- A finite sequence of key events applied in order. -/
def applyEvents (v : Viewport) (es : List InputEvent) : Viewport :=
  List.foldl applyEvent v es

/-- The initial viewport (lines 18–20): the decimal literals of the
source, with `zoom = 0.5`. -/
def initialViewport : Viewport :=
  { offsetX := -(705922586560551705765 : ℚ) / 1000000000000000000000,
    offsetY := -(267652025962102419929 : ℚ) / 1000000000000000000000,
    zoom := 1/2 }

/-! ## Generation coordinator (`generateMandelbrotAsync`, lines 132–139) -/

/-- Observable coordinator state: the `isGenerating` flag (line 28), the
shared frame buffer, and the parameters of the in-flight generation
(the viewport snapshot the spawned thread computes against), `none`
when no generation is in flight. -/
structure CoordState where
  isGenerating : Bool
  frame : List ℕ
  inFlight : Option Viewport
  deriving DecidableEq

/-- The synchronous effect of `generateMandelbrotAsync` (lines 132–139):
if `isGenerating` is set the call returns immediately (line 133);
otherwise it sets the flag and spawns a generation against the current
viewport (lines 134–138).  The spawned work itself mutates `frame`
later, not during this call. -/
def generateMandelbrotAsync (v : Viewport) (s : CoordState) : CoordState :=
  if s.isGenerating then s
  else { isGenerating := true, frame := s.frame, inFlight := some v }

/-! ## Binary32 rounding model (the float semantics of the pan handlers) -/

/-- Rounding of a rational to the nearest integer, ties to even. -/
def rnEvenInt (q : ℚ) : ℤ :=
  if q - ⌊q⌋ < 1/2 then ⌊q⌋
  else if q - ⌊q⌋ > 1/2 then ⌊q⌋ + 1
  else if ⌊q⌋ % 2 = 0 then ⌊q⌋ else ⌊q⌋ + 1

/-- Rounding of a rational to the nearest IEEE binary32 value (round to
nearest, ties to even): the mantissa `|q| / 2^(e-23)` with
`e = ⌊log₂ |q|⌋` is rounded to the nearest even integer and scaled
back.  Subnormal flush and overflow are not modelled; every input this
development evaluates it on is a normal value or zero. -/
def roundF32 (q : ℚ) : ℚ :=
  if q = 0 then 0
  else
    (if 0 < q then 1 else -1) *
      (rnEvenInt (|q| * 2 ^ (23 - Int.log 2 |q|)) : ℚ) * 2 ^ (Int.log 2 |q| - 23)

/-- The binary32 value of the literal `0.1f` of the pan handlers
(lines 176–188): `13421773 · 2⁻²⁷`, the nearest float to 1/10. -/
def PAN_STEP_F32 : ℚ := 13421773 / 134217728

/-- Pan-right under the source's float semantics (line 188):
`offsetX += (0.1f / zoom)`, the division and the addition each rounded
to binary32. -/
def panRightF32 (x zoom : ℚ) : ℚ :=
  roundF32 (x + roundF32 (PAN_STEP_F32 / zoom))

/-- Pan-left under the source's float semantics (line 184):
`offsetX -= (0.1f / zoom)`, the division and the subtraction each
rounded to binary32. -/
def panLeftF32 (x zoom : ℚ) : ℚ :=
  roundF32 (x - roundF32 (PAN_STEP_F32 / zoom))

/-! ## Specification-side formulas (for the refinement claims) -/

/-- Spec constant `ASPECT_X = 3.5`. -/
def ASPECT_X : ℚ := 7/2

/-- Spec constant `ASPECT_Y = 2.0`. -/
def ASPECT_Y : ℚ := 2

/-- The spec's formula for the mapped real coordinate:
`cx = (x - WIDTH/2) * (ASPECT_X / WIDTH / zoom) + offsetX`. -/
def specCx (x : ℕ) (offX zoom : ℚ) : ℚ :=
  ((x : ℚ) - (WIDTH : ℚ) / 2) * (ASPECT_X / (WIDTH : ℚ) / zoom) + offX

/-- The spec's formula for the mapped imaginary coordinate:
`cy = (y - HEIGHT/2) * (ASPECT_Y / HEIGHT / zoom) + offsetY`. -/
def specCy (y : ℕ) (offY zoom : ℚ) : ℚ :=
  ((y : ℚ) - (HEIGHT : ℚ) / 2) * (ASPECT_Y / (HEIGHT : ℚ) / zoom) + offY

/-! ## Helper lemmas -/

/-- At `c = 0` the loop state stays `z = 0`: the loop never escapes and
consumes its whole budget, returning `iter + fuel`. -/
lemma mandelLoop_zero (fuel : ℕ) : ∀ iter : ℕ,
    mandelLoop 0 0 fuel 0 0 iter = (iter + fuel, false) := by
  induction fuel with
  | zero => intro iter; simp [mandelLoop]
  | succ n ih =>
    intro iter
    have h := ih (iter + 1)
    rw [mandelLoop]
    norm_num at h ⊢
    rw [h]
    congr 1
    omega

/-- The loop counter never exceeds the starting counter plus the budget. -/
lemma mandelLoop_le (cx cy : ℚ) (fuel : ℕ) : ∀ zx zy : ℚ, ∀ iter : ℕ,
    (mandelLoop cx cy fuel zx zy iter).1 ≤ iter + fuel := by
  induction fuel with
  | zero => intro zx zy iter; simp [mandelLoop]
  | succ n ih =>
    intro zx zy iter
    rw [mandelLoop]
    by_cases h : zx * zx + zy * zy > 4
    · simp [h]
    · simp [h]
      calc (mandelLoop cx cy n (zx * zx - zy * zy + cx) (2 * zx * zy + cy) (iter + 1)).1
          ≤ (iter + 1) + n := ih _ _ _
        _ = iter + (n + 1) := by omega

/-- Indexing the built color table inside its bounds yields the
corresponding `colorEntry`. -/
lemma colorLookup_lt (n : ℕ) (h : n < MAX_ITER + 1) :
    colorLookup n = colorEntry n := by
  unfold colorLookup initColorTable
  rw [List.getD_eq_getElem?_getD]
  rw [List.getElem?_map]
  rw [List.getElem?_range h]
  rfl

/-- The table entry at index 800 is exactly black: at `t = 1` every
factor `(1 - t)` vanishes. -/
lemma colorEntry_max : colorEntry MAX_ITER = (0, 0, 0) := by
  norm_num [colorEntry, toByte, MAX_ITER]

/-- The table entry at index 32 (the byte 800 reduces to mod 256). -/
lemma colorEntry_32 : colorEntry 32 = (0, 5, 76) := by
  norm_num [colorEntry, toByte, MAX_ITER]
  decide

/-- The center pixel of the raster with viewport `(0, 0, 1)` maps to the
complex origin. -/
lemma kernelC_center : kernelCx 400 0 1 = 0 ∧ kernelCy 300 0 1 = 0 := by
  constructor
  · norm_num [kernelCx, scaleX, WIDTH]
  · norm_num [kernelCy, scaleY, HEIGHT]

/-- At `c = (2, 0)` the kernel escapes at counter 2 whenever the budget
allows three loop entries: `z` runs `0 ↦ 2 ↦ 6`, and `|z|² = 4` after
one step does not satisfy the strict escape test `> 4`. -/
lemma mandelRun_two_zero (maxIter : ℕ) (h : 3 ≤ maxIter) :
    mandelRun 2 0 maxIter = (2, true) := by
  obtain ⟨k, rfl⟩ : ∃ k, maxIter = k + 3 := ⟨maxIter - 3, by omega⟩
  show mandelLoop 2 0 (k + 2 + 1) 0 0 0 = (2, true)
  rw [mandelLoop]
  norm_num
  show mandelLoop 2 0 (k + 1 + 1) 2 0 1 = (2, true)
  rw [mandelLoop]
  norm_num
  show mandelLoop 2 0 (k + 1) 6 0 2 = (2, true)
  cases k with
  | zero => rw [mandelLoop]; norm_num
  | succ m => rw [mandelLoop]; norm_num

/-- Zoom stays positive across any single event when it was positive. -/
lemma applyEvent_zoom_pos (v : Viewport) (e : InputEvent) (h : 0 < v.zoom) :
    0 < (applyEvent v e).zoom := by
  cases e with
  | panUp => simpa [applyEvent] using h
  | panDown => simpa [applyEvent] using h
  | panLeft => simpa [applyEvent] using h
  | panRight => simpa [applyEvent] using h
  | zoomIn =>
    simp only [applyEvent]
    exact mul_pos h (by norm_num [ZOOM_FACTOR])
  | zoomOut =>
    simp only [applyEvent]
    exact div_pos h (by norm_num [ZOOM_FACTOR])

/-- Zoom stays positive across any event sequence when it was positive. -/
lemma applyEvents_zoom_pos (es : List InputEvent) : ∀ v : Viewport,
    0 < v.zoom → 0 < (applyEvents v es).zoom := by
  induction es with
  | nil => intro v h; simpa [applyEvents] using h
  | cons e t ih =>
    intro v h
    have := ih (applyEvent v e) (applyEvent_zoom_pos v e h)
    simpa [applyEvents, List.foldl] using this

/-- A rational in `[1, 2)` has binary exponent 0. -/
lemma int_log2_eq_zero {q : ℚ} (h1 : 1 ≤ q) (h2 : q < 2) : Int.log 2 q = 0 := by
  rw [Int.log_of_one_le_right 2 h1]
  rw [show ⌊q⌋₊ = 1 from (Nat.floor_eq_iff (by linarith)).mpr
    (by push_cast; constructor <;> linarith)]
  simp [Nat.log_one_right]

/-- Binary32 rounding on `[1, 2)`: scale by `2²³`, round to nearest
even integer, scale back. -/
lemma roundF32_of_one_le {q : ℚ} (h1 : 1 ≤ q) (h2 : q < 2) :
    roundF32 q = (rnEvenInt (q * 2 ^ (23 : ℕ)) : ℚ) / 2 ^ (23 : ℕ) := by
  have h0 : 0 < q := by linarith
  unfold roundF32
  rw [if_neg (by linarith), if_pos h0, abs_of_pos h0, int_log2_eq_zero h1 h2]
  norm_num
  ring

/-- The value 1 is a binary32 value, so it rounds to itself. -/
lemma roundF32_one : roundF32 1 = 1 := by
  rw [roundF32_of_one_le le_rfl one_lt_two]
  norm_num [rnEvenInt]

/-- Rounding `1 + 2⁻²⁴` to binary32: the value sits exactly halfway
between the neighbours `1` and `1 + 2⁻²³`, and ties-to-even picks `1`. -/
lemma roundF32_one_add_ulp_half : roundF32 (1 + 1/16777216) = 1 := by
  rw [roundF32_of_one_le (by norm_num) (by norm_num)]
  norm_num [rnEvenInt]

/-- Zero rounds to zero. -/
lemma roundF32_zero : roundF32 0 = 0 := by
  simp [roundF32]

/-- Ceiling binary logarithm of 10. -/
lemma natClog2_ten : Nat.clog 2 10 = 4 := by
  rw [Nat.clog_of_two_le (by norm_num) (by norm_num)]
  norm_num
  rw [Nat.clog_of_two_le (by norm_num) (by norm_num)]
  norm_num
  rw [Nat.clog_of_two_le (by norm_num) (by norm_num)]
  norm_num
  rw [Nat.clog_of_two_le (by norm_num) (by norm_num)]
  norm_num [Nat.clog_one_right]

/-- Sanity check for the modelled literal: `PAN_STEP_F32` is exactly
the binary32 rounding of the decimal `0.1` of the source. -/
lemma PAN_STEP_F32_eq_round : PAN_STEP_F32 = roundF32 (1/10) := by
  have hlog : Int.log 2 ((1:ℚ)/10) = -4 := by
    rw [Int.log_of_right_le_one 2 (by norm_num)]
    rw [show ((1:ℚ)/10)⁻¹ = 10 by norm_num]
    rw [show ⌈(10:ℚ)⌉₊ = 10 by norm_num]
    rw [natClog2_ten]
    norm_num
  unfold roundF32
  rw [if_neg (by norm_num), if_pos (by norm_num), abs_of_pos (by norm_num), hlog]
  norm_num [rnEvenInt, PAN_STEP_F32]

/-! ## Claims -/

/-- C1 counterexample: at the center pixel `(400, 300)` with viewport
`offsetX = offsetY = 0`, `zoom = 1`, the kernel's iteration count is
`MAX_ITER = 800`, but the RGB triple written into the frame buffer is
the palette entry for `800 % 256 = 32`, which differs from the palette
entry for 800 — so the stored bytes are not `Palette.lookup(n)`. -/
theorem framePixel_ne_palette_of_count :
    (mandelbrotPixelIter 400 300 0 0 1 MAX_ITER).1 = MAX_ITER ∧
    framePixel 400 300 0 0 1 ≠
      colorLookup (mandelbrotPixelIter 400 300 0 0 1 MAX_ITER).1 := by
  obtain ⟨hx, hy⟩ := kernelC_center
  have hrun : mandelbrotPixelIter 400 300 0 0 1 MAX_ITER = (MAX_ITER, false) := by
    unfold mandelbrotPixelIter mandelRun
    rw [hx, hy]
    simpa using mandelLoop_zero MAX_ITER 0
  refine ⟨by rw [hrun], ?_⟩
  unfold framePixel mandelbrotKernelPixel
  rw [hrun]
  simp only
  rw [show MAX_ITER % 256 = 32 from by norm_num [MAX_ITER]]
  rw [colorLookup_lt 32 (by norm_num [MAX_ITER])]
  rw [colorLookup_lt MAX_ITER (by norm_num [MAX_ITER])]
  rw [colorEntry_32, colorEntry_max]
  simp

/-- C1 amended: for every pixel and viewport, the RGB triple written
into the frame buffer equals the palette entry for the kernel's
iteration count reduced modulo 256 (the kernel stores the count in a
`uchar3`, so the host looks up `n % 256`, never `n` itself). -/
theorem framePixel_eq_palette_mod256 (x y : ℕ) (offX offY zoom : ℚ) :
    framePixel x y offX offY zoom =
      colorEntry ((mandelbrotPixelIter x y offX offY zoom MAX_ITER).1 % 256) := by
  unfold framePixel mandelbrotKernelPixel
  simp only
  apply colorLookup_lt
  have h := Nat.mod_lt (mandelbrotPixelIter x y offX offY zoom MAX_ITER).1
    (show 0 < 256 by norm_num)
  unfold MAX_ITER
  omega

/-- C2 counterexample: at `c = (2, 0)` with the program's
`MAX_ITER = 800`, the kernel escapes with counter 2, not at most 1:
after one step `|z|² = 4`, which does not satisfy the strict test
`> 4`, so a second step to `z = 6` is taken before the escape. -/
theorem escape_at_two_counterexample :
    mandelRun 2 0 MAX_ITER = (2, true) ∧
    ¬ (mandelRun 2 0 MAX_ITER).1 ≤ 1 := by
  have h := mandelRun_two_zero MAX_ITER (by norm_num [MAX_ITER])
  exact ⟨h, by rw [h]; norm_num⟩

/-- C2 amended: for every `maxIter ≥ 3`, a point whose mapped complex
coordinate is exactly `(2.0, 0.0)` makes the kernel terminate by escape
with a returned counter of exactly 2. -/
theorem escape_at_two (maxIter : ℕ) (h : 3 ≤ maxIter) :
    mandelRun 2 0 maxIter = (2, true) :=
  mandelRun_two_zero maxIter h

/-- Witness for C2 at the program's `MAX_ITER = 800`. -/
theorem escape_at_two_witness :
    3 ≤ MAX_ITER ∧ mandelRun 2 0 MAX_ITER = (2, true) :=
  ⟨by norm_num [MAX_ITER], escape_at_two MAX_ITER (by norm_num [MAX_ITER])⟩

/-- C3: calling `generateMandelbrotAsync` while `isGenerating` is set
returns the state unchanged — frame buffer, flag, and the in-flight
request's parameters are all untouched. -/
theorem requestGeneration_noop_when_busy (v : Viewport) (s : CoordState)
    (h : s.isGenerating = true) : generateMandelbrotAsync v s = s := by
  unfold generateMandelbrotAsync
  rw [h]
  simp

/-- Witness for C3 at a concrete busy state. -/
theorem requestGeneration_noop_when_busy_witness :
    (CoordState.mk true [7] (some initialViewport)).isGenerating = true ∧
    generateMandelbrotAsync initialViewport
        (CoordState.mk true [7] (some initialViewport)) =
      CoordState.mk true [7] (some initialViewport) :=
  ⟨rfl, requestGeneration_noop_when_busy initialViewport
    (CoordState.mk true [7] (some initialViewport)) rfl⟩

/-- C4: for every pixel and viewport whose mapped complex coordinate is
exactly `(0.0, 0.0)`, the kernel never satisfies the escape condition
and its counter at termination equals exactly `MAX_ITER`. -/
theorem origin_reaches_max_iter (x y : ℕ) (offX offY zoom : ℚ)
    (hx : kernelCx x offX zoom = 0) (hy : kernelCy y offY zoom = 0) :
    mandelbrotPixelIter x y offX offY zoom MAX_ITER = (MAX_ITER, false) := by
  unfold mandelbrotPixelIter mandelRun
  rw [hx, hy]
  simpa using mandelLoop_zero MAX_ITER 0

/-- Witness for C4 at the center pixel with viewport `(0, 0, 1)`. -/
theorem origin_reaches_max_iter_witness :
    kernelCx 400 0 1 = 0 ∧ kernelCy 300 0 1 = 0 ∧
    mandelbrotPixelIter 400 300 0 0 1 MAX_ITER = (MAX_ITER, false) :=
  ⟨kernelC_center.1, kernelC_center.2,
    origin_reaches_max_iter 400 300 0 0 1 kernelC_center.1 kernelC_center.2⟩

/-- C5: the complex coordinate iterated by the kernel agrees with the
spec formula `c = ((x - WIDTH/2)·(ASPECT_X/WIDTH/zoom) + offsetX,
(y - HEIGHT/2)·(ASPECT_Y/HEIGHT/zoom) + offsetY)` with `ASPECT_X = 3.5`
and `ASPECT_Y = 2.0`, for every pixel and viewport. -/
theorem kernel_coordinate_matches_spec (x y : ℕ) (offX offY zoom : ℚ) :
    kernelCx x offX zoom = specCx x offX zoom ∧
    kernelCy y offY zoom = specCy y offY zoom := by
  constructor
  · unfold kernelCx specCx scaleX ASPECT_X WIDTH
    push_cast
    ring
  · unfold kernelCy specCy scaleY ASPECT_Y HEIGHT
    push_cast
    ring

/-- C6: rebuilding the color table yields an identical table, the entry
at index 0 is exactly `(0,0,0)`, and the entry at index `MAX_ITER` is
`(0,0,0)` (the smoothing polynomials vanish at `t = 1`). -/
theorem colorTable_deterministic_endpoints :
    initColorTable = initColorTable ∧
    colorLookup 0 = (0, 0, 0) ∧
    colorLookup MAX_ITER = (0, 0, 0) := by
  refine ⟨rfl, ?_, ?_⟩
  · rw [colorLookup_lt 0 (by norm_num)]
    norm_num [colorEntry, toByte, MAX_ITER]
  · rw [colorLookup_lt MAX_ITER (by norm_num)]
    exact colorEntry_max

/-- C7: starting from the initial viewport (`zoom = 0.5`), any finite
sequence of pan, zoom-in and zoom-out events leaves `zoom` strictly
positive. -/
theorem zoom_stays_positive (es : List InputEvent) :
    0 < (applyEvents initialViewport es).zoom :=
  applyEvents_zoom_pos es initialViewport (by norm_num [initialViewport])

/-- C8 counterexample under the source's binary32 semantics: from
`offsetX = 2⁻²⁴` with `zoom` equal to the float value of `0.1f`, the
pan step is exactly 1; pan-right rounds `2⁻²⁴ + 1` to `1` (ties to
even), and pan-left then yields `0`, not the original `2⁻²⁴` — the
round-trip is not exact for every viewport state. -/
theorem pan_float_roundtrip_counterexample :
    panLeftF32 (panRightF32 (1/16777216) PAN_STEP_F32) PAN_STEP_F32 = 0 ∧
    (1/16777216 : ℚ) ≠ 0 := by
  have hstep : roundF32 (PAN_STEP_F32 / PAN_STEP_F32) = 1 := by
    rw [div_self (by norm_num [PAN_STEP_F32])]
    exact roundF32_one
  refine ⟨?_, by norm_num⟩
  unfold panRightF32 panLeftF32
  rw [hstep]
  rw [show (1/16777216 : ℚ) + 1 = 1 + 1/16777216 by ring]
  rw [roundF32_one_add_ulp_half]
  norm_num [roundF32_zero]

/-- C8 amended: pan-right followed by pan-left, with no zoom change in
between, restores `offsetX` exactly in the exact-arithmetic model of
the transitions (`offsetX + PAN_STEP/zoom - PAN_STEP/zoom = offsetX`);
under the program's binary32 `float` arithmetic the restoration is
only approximate, and fails exactly on states like the one of
the counterexample above. -/
theorem pan_right_left_roundtrip (v : Viewport) :
    (applyEvent (applyEvent v InputEvent.panRight) InputEvent.panLeft).offsetX =
      v.offsetX := by
  simp [applyEvent]

/-- C9: for every mapped coordinate (whatever the pixel and viewport
produced, including degenerate zoom values) and every budget, the
kernel loop terminates with its counter bounded by `maxIter`: the
counter grows by one per pass and the guard caps it. -/
theorem kernel_terminates_within_budget (cx cy : ℚ) (maxIter : ℕ) :
    (mandelRun cx cy maxIter).1 ≤ maxIter := by
  simpa [mandelRun] using mandelLoop_le cx cy maxIter 0 0 0

/-- C10: the byte the host reads back for any pixel is below 256, the
palette has `MAX_ITER + 1 = 801` entries, and hence the host lookup
`colorTable[output[idx].s0]` is within bounds. -/
theorem palette_lookup_in_bounds (x y : ℕ) (offX offY zoom : ℚ) :
    initColorTable.length = MAX_ITER + 1 ∧
    (mandelbrotKernelPixel x y offX offY zoom MAX_ITER).1 < 256 ∧
    (mandelbrotKernelPixel x y offX offY zoom MAX_ITER).1 <
      initColorTable.length := by
  have hlen : initColorTable.length = MAX_ITER + 1 := by
    simp [initColorTable]
  have hb : (mandelbrotKernelPixel x y offX offY zoom MAX_ITER).1 < 256 := by
    simp only [mandelbrotKernelPixel]
    omega
  refine ⟨hlen, hb, ?_⟩
  rw [hlen]
  have h256 : (256 : ℕ) ≤ MAX_ITER + 1 := by norm_num [MAX_ITER]
  omega

end MandelbrotGPU
